import Mathlib

/-!
Shallow embedding of the `cloudify-manager-install` orchestration and
validation code (files `cfy_manager/main.py`,
`cfy_manager/components/validations.py`,
`cfy_manager/components/rabbitmq/rabbitmq.py`).

Conventions: module-level mutable state (the `_errors` accumulator) is
passed explicitly; calls into the OS / external processes are replaced by
oracle structures (`Env`, `Fs`) supplying the results of those calls;
Python exceptions become `Except Err`.
-/

namespace Cfy

set_option maxRecDepth 8000

/-- Error kinds of the program.  `cfy_manager/exceptions.py` is not part of
the sources; the kinds are the ones named by the spec's error-handling
section (ConfigurationError, ConfigAccessError, ValidationError,
BootstrapError, ClusteringError, NetworkError) plus Python's built-in
TypeError, each carrying its message. -/
inductive Err where
  | configurationError (msg : String)
  | configAccessError (msg : String)
  | validationError (msg : String)
  | bootstrapError (msg : String)
  | clusteringError (msg : String)
  | networkError (msg : String)
  | typeError
  deriving DecidableEq, Repr

/-- The kind tag of an error, forgetting the message. -/
inductive ErrTag where
  | configurationErr | configAccessErr | validationErr | bootstrapErr
  | clusteringErr | networkErr | typeErr
  deriving DecidableEq, Repr

def Err.tag : Err → ErrTag
  | .configurationError _ => .configurationErr
  | .configAccessError _ => .configAccessErr
  | .validationError _ => .validationErr
  | .bootstrapError _ => .bootstrapErr
  | .clusteringError _ => .clusteringErr
  | .networkError _ => .networkErr
  | .typeError => .typeErr

/-- The kind tag of the error of a failed computation, if it failed. -/
def errTag {α : Type} : Except Err α → Option ErrTag
  | .error e => some e.tag
  | .ok _ => none

instance {ε α : Type} [DecidableEq ε] [DecidableEq α] :
    DecidableEq (Except ε α) := fun a b =>
  match a, b with
  | .ok x, .ok y =>
    if h : x = y then .isTrue (by rw [h])
    else .isFalse (by intro he; cases he; exact h rfl)
  | .error x, .error y =>
    if h : x = y then .isTrue (by rw [h])
    else .isFalse (by intro he; cases he; exact h rfl)
  | .ok _, .error _ => .isFalse (by intro he; cases he)
  | .error _, .ok _ => .isFalse (by intro he; cases he)

/-! ## Python semantics helpers -/

/-- Python truthiness of an optional string (`None` and `''` are falsy). -/
def pyTruthy : Option String → Bool
  | none => false
  | some s => !s.data.isEmpty

/-- Python `str.lower()` on an ASCII character (the identifiers the
sources lowercase are ASCII). -/
def pyLowerChar (c : Char) : Char :=
  if 'A' ≤ c && c ≤ 'Z' then Char.ofNat (c.toNat + 32) else c

/-- Python `s.lower()`. -/
def pyLower (s : String) : String := String.mk (s.data.map pyLowerChar)

/-- Python `s.split(sep)[0]`: the characters before the first separator
(the whole string when the separator does not occur). -/
def pySplitFirst (sep : Char) (s : String) : String :=
  String.mk (s.data.takeWhile (· ≠ sep))

/-- Helper of `pySplitWs`: splits a character list into maximal
whitespace-free words. -/
def pyWordsAux : List Char → List Char → List String
  | [], cur => if cur.isEmpty then [] else [String.mk cur.reverse]
  | c :: rest, cur =>
    if c.isWhitespace then
      if cur.isEmpty then pyWordsAux rest []
      else String.mk cur.reverse :: pyWordsAux rest []
    else pyWordsAux rest (c :: cur)

/-- Python `s.split()` (split on whitespace, dropping empty fields). -/
def pySplitWs (s : String) : List String := pyWordsAux s.data []

/-- Python `s.strip()`. -/
def pyStrip (s : String) : String :=
  String.mk
    (((s.data.dropWhile Char.isWhitespace).reverse.dropWhile
      Char.isWhitespace).reverse)

/-- Python `d.get(k)` result defaulted as `config[...][...]` string use:
`None` becomes `''` when the value is used as a string. -/
def pyGetD (v : Option String) : String := v.getD ""

/-- Python `sep.join(l)`. -/
def pyJoin (sep : String) : List String → String
  | [] => ""
  | [x] => x
  | x :: y :: rest => x ++ sep ++ pyJoin sep (y :: rest)

/-- Python `pat in s` (substring containment) on strings. -/
def pyInStr (pat s : String) : Bool :=
  (List.range (s.data.length + 1)).any fun i => pat.data.isPrefixOf (s.data.drop i)

/-- Python `c in s` for a single character. -/
def pyCharIn (c : Char) (s : String) : Bool := s.data.contains c

/-- Python 2 `str.__iadd__` applied to a `str` and a `list` raises
`TypeError: cannot concatenate 'str' and 'list' objects`. -/
def pyStrPlusList (_s : String) (_l : List String) : Except Err String :=
  .error .typeError

/-! ## Component registry (`cfy_manager/components/__init__.py` via `main.py`) -/

/-- Python's stable insert for `sorted(..., key=key)` (insertion sort is
stable: an element is placed after earlier elements with a key `≤` its
own). -/
def pySortInsert (key : String → Nat) (x : String) : List String → List String
  | [] => [x]
  | y :: ys => if key x ≤ key y then x :: y :: ys else y :: pySortInsert key x ys

/-- Python `sorted(l, key=key)`: a stable sort by `key`. -/
def pySorted (key : String → Nat) : List String → List String
  | [] => []
  | x :: xs => pySortInsert key x (pySorted key xs)

/-- Embedding of `main.py::_get_components_list`.  `SERVICE_COMPONENTS` and
`SERVICE_INSTALLATION_ORDER` live in `cfy_manager/components/__init__.py`,
which is not among the sources, so they are passed as parameters here
(`sc` maps a service name to its ordered component list, `sio` is the
total installation order of service names; `services_to_install` is
`config[SERVICES_TO_INSTALL]`).  `SERVICE_INSTALLATION_ORDER.index`
becomes `sio.indexOf`. -/
def _get_components_list (sc : String → List String) (sio : List String)
    (services_to_install : List String) : List String :=
  let ordered_services := pySorted sio.indexOf services_to_install
  ordered_services.flatMap sc

/-- Modelled from the spec: a concrete registry instance consistent with
the spec's registry contract — services have a strict total installation
order, each service an ordered component list, and "a component may belong
to more than one service" (here the broker component belongs to both the
queue service and the manager service). -/
def specServiceComponents : String → List String := fun s =>
  if s = "database_service" then ["postgresql_server"]
  else if s = "queue_service" then ["rabbitmq"]
  else if s = "manager_service" then ["rabbitmq", "postgresql_client", "restservice"]
  else []

/-- Modelled from the spec: the total installation order across the three
services of the spec's overview (database, queue, manager). -/
def specServiceInstallationOrder : List String :=
  ["database_service", "queue_service", "manager_service"]

/-! ## Orchestrator lifecycle loops (`main.py`) -/

/-- A constructed component: its registry name and the `skip_installation`
flag derived from its config (`main.py::_create_component_objects`). -/
structure Component where
  name : String
  skip_installation : Bool
  /-- Outcome of this component's `validate_dependencies()` hook
  (`base_component.py`; default no-op): `some e` when the hook raises
  `e`. -/
  validate_dependencies_error : Option Err
  deriving DecidableEq, Repr

/-- One lifecycle call on a named component. -/
inductive Event where
  | install (name : String)
  | configure (name : String)
  | start (name : String)
  | stop (name : String)
  | remove (name : String)
  deriving DecidableEq, Repr

/-- The lifecycle calls driven by the `install` command
(`main.py::install`, the two component loops): every non-skipped
component's `install()`, then — unless only-install mode — every
non-skipped component's `configure()`. -/
def installCmdCalls (components : List Component) (only_install : Bool) :
    List Event :=
  (components.flatMap fun c =>
    if !c.skip_installation then [Event.install c.name] else [])
  ++ (if !only_install then
        components.flatMap fun c =>
          if !c.skip_installation then [Event.configure c.name] else []
      else [])

/-- The lifecycle calls driven by the `configure` command
(`main.py::configure`): when `clean_db`, every non-skipped component's
`stop()`; then every non-skipped component's `configure()`. -/
def configureCmdCalls (components : List Component) (clean_db : Bool) :
    List Event :=
  (if clean_db then
    components.flatMap fun c =>
      if !c.skip_installation then [Event.stop c.name] else []
   else [])
  ++ components.flatMap fun c =>
      if !c.skip_installation then [Event.configure c.name] else []

/-- The lifecycle calls driven by the `remove` command
(`main.py::remove`): over `reversed(components)`, `stop()` when the
manager was configured (`should_stop`) and the component is not skipped,
then `remove()` — the latter unconditionally. -/
def removeCmdCalls (components : List Component) (should_stop : Bool) :
    List Event :=
  components.reverse.flatMap fun c =>
    (if should_stop && !c.skip_installation then [Event.stop c.name] else [])
    ++ [Event.remove c.name]

/-- The component loop of the `stop` command (`main.py::stop`). -/
def stopCmdCalls (components : List Component) : List Event :=
  components.flatMap fun c =>
    if !c.skip_installation then [Event.stop c.name] else []

/-- The component loop of the `start` command (`main.py::start`). -/
def startCmdCalls (components : List Component) : List Event :=
  components.flatMap fun c =>
    if !c.skip_installation then [Event.start c.name] else []

/-! ## On-disk markers and command preconditions (`main.py`) -/

/-- Oracle for `os.path.isfile` / `os.access` facts about the host. -/
structure Fs where
  isfile : String → Bool
  readable : String → Bool
  writable : String → Bool

/-- Path `constants.INITIAL_INSTALL_FILE`; `cfy_manager/constants.py` is not
among the sources, but `main.py::_create_initial_install_file`'s docstring
names the path `/etc/cloudify/.installed`. -/
def INITIAL_INSTALL_FILE : String := "/etc/cloudify/.installed"

/-- Path `constants.INITIAL_CONFIGURE_FILE`; named `/etc/cloudify/.configured`
by `main.py::_create_initial_configure_file`'s docstring. -/
def INITIAL_CONFIGURE_FILE : String := "/etc/cloudify/.configured"

def _is_manager_installed (fs : Fs) : Bool := fs.isfile INITIAL_INSTALL_FILE

def _is_manager_configured (fs : Fs) : Bool := fs.isfile INITIAL_CONFIGURE_FILE

/-- The message template of `main.py::_validate_manager_prepared`
(both raises pass `touched_file=INITIAL_INSTALL_FILE`, as the source
does). -/
def preparedErrorMessage (fix_cmd touched_file cmd : String) : String :=
  "Could not find " ++ touched_file ++ ".\nThis most likely means " ++
  "that you need to run `cfy_manager " ++ fix_cmd ++ "` before " ++
  "running `cfy_manager " ++ cmd ++ "`"

/-- Embedding of `main.py::_validate_manager_prepared`. -/
def _validate_manager_prepared (fs : Fs) (cmd : String) : Except Err Unit :=
  if !_is_manager_installed fs then
    .error (.bootstrapError
      (preparedErrorMessage "install" INITIAL_INSTALL_FILE cmd))
  else if !_is_manager_configured fs && cmd != "configure" then
    .error (.bootstrapError
      (preparedErrorMessage "configure" INITIAL_INSTALL_FILE cmd))
  else
    .ok ()

/-- Embedding of `main.py::start`: validate the on-disk markers, then drive every
non-skipped component's `start()`; on a marker failure the exception
propagates and no lifecycle call is made. -/
def startCmd (fs : Fs) (components : List Component) :
    Except Err (List Event) := do
  _validate_manager_prepared fs "start"
  .ok (startCmdCalls components)

/-! ## Validation engine (`components/validations.py`) -/

/-- Modelled from the spec: the service-name constants come from
`components/service_components.py`, which is not among the sources; the
spec names the database, queue and manager services. -/
def DATABASE_SERVICE : String := "database_service"

/-- Modelled from the spec: see `DATABASE_SERVICE`. -/
def QUEUE_SERVICE : String := "queue_service"

/-- Modelled from the spec: see `DATABASE_SERVICE`. -/
def MANAGER_SERVICE : String := "manager_service"

/-- Modelled from the spec: `constants.USER_CONFIG_PATH` is defined in
`cfy_manager/constants.py`, which is not among the sources; the spec says
the user config is "a structured file at a fixed path". -/
def USER_CONFIG_PATH : String := "/etc/cloudify/config.yaml"

/-- The slice of the layered configuration read by the validation engine
(`config[...]` lookups in `validations.py`).  `ssl_inputs` is kept as a
key-to-value map because `check_certificates` receives its key names as
arguments. -/
structure Config where
  services_to_install : List String
  manager_private_ip : Option String
  manager_public_ip : Option String
  postgresql_server_enable_remote_connections : Bool
  postgresql_server_postgres_password : String
  postgresql_server_ssl_enabled : Bool
  postgresql_client_host : String
  postgresql_client_postgres_password : String
  postgresql_client_ssl_enabled : Bool
  ssl_inputs : String → Option String
  cluster_active_manager_ip : Option String
  validations_skip_validations : Bool
  supported_distros : List String
  supported_distro_versions : List String
  expected_python_version : String
  minimum_required_total_physical_memory_in_mb : Nat
  minimum_required_available_disk_space_in_gb : Nat

/-- Oracle for every OS / subprocess / library call the validation engine
makes: each field is the result the call would return. -/
structure Env where
  /-- First component of `platform.linux_distribution`. -/
  platform_distro : String
  /-- Second component of `platform.linux_distribution`. -/
  platform_version : String
  /-- `sys.version_info[0]`. -/
  python_major : Nat
  /-- `sys.version_info[1]`. -/
  python_minor : Nat
  /-- The `MemTotal` entry of `/proc/meminfo`, in kB. -/
  memtotal_kb : Nat
  /-- `os.statvfs('/opt').f_bavail`. -/
  disk_bavail : Nat
  /-- `os.statvfs('/opt').f_bsize`. -/
  disk_bsize : Nat
  /-- `run(['openssl', 'version']).aggr_stdout`, or the `OSError` text. -/
  openssl_run : Except String String
  /-- `LooseVersion a < LooseVersion b`. -/
  loose_version_lt : String → String → Bool
  /-- `getpass.getuser()`. -/
  getuser : String
  /-- Return code of `run(['sudo', '-n', 'true'])`. -/
  sudo_true_rc : Int
  /-- `aggr_stderr` of `run(['sudo', '-n', 'true'])`. -/
  sudo_true_stderr : String
  /-- For each interface (in `netifaces.interfaces()` order), the `addr`
  entries of its `AF_INET` addresses (`none` when an entry has no `addr`;
  an interface with no addresses or no `AF_INET` key yields `[]`). -/
  interfaces_inet : List (List (Option String))
  /-- Whether `ipaddress.ip_address` accepts the string. -/
  ip_parses : String → Bool
  /-- `os.path.isfile`. -/
  isfile : String → Bool
  /-- Return code of `sudo(cmd, ignore_failures=True)`. -/
  sudo_rc : List String → Int
  /-- `sudo(cmd).aggr_stdout`. -/
  sudo_stdout : List String → String
  /-- Whether `sudo(cmd)` raises `subprocess.CalledProcessError`. -/
  sudo_raises_called_process_error : List String → Bool

/-- Embedding of `validations.py::_get_os_distro`: lowercased distro name
and the first dotted component of the version. -/
def _get_os_distro (env : Env) : String × String :=
  (pyLower env.platform_distro, pySplitFirst '.' env.platform_version)

/-- Python `str(list_of_str)` as used when a list is interpolated into an
error message. -/
def pyReprStrList (l : List String) : String :=
  "[" ++ pyJoin ", " (l.map fun s => "\x27" ++ s ++ "\x27") ++ "]"

/-- Embedding of `validations.py::_validate_supported_distros` (soft:
appends to the accumulator). -/
def _validate_supported_distros (env : Env) (cfg : Config)
    (errs : List String) : List String :=
  let (distro, version) := _get_os_distro env
  let errs :=
    if !cfg.supported_distros.contains distro then
      errs ++ ["Cloudify manager does not support the current distro (`" ++
        distro ++ "`),supported distros are: " ++
        pyReprStrList cfg.supported_distros]
    else errs
  if !cfg.supported_distro_versions.contains version then
    errs ++ ["Cloudify manager does not support the current distro version (`"
      ++ version ++ "`), supported versions are: " ++
      pyReprStrList cfg.supported_distro_versions]
  else errs

/-- Python `set.add` modelled as an ordered duplicate-free list (the
source's `all_addresses` is a `set`; its iteration order is modelled as
insertion order). -/
def pySetAdd (acc : List String) (a : String) : List String :=
  if acc.contains a then acc else acc ++ [a]

/-- The inner loop of `_validate_ip` over one interface's `AF_INET`
addresses: stops (found) on a match, otherwise collects the address. -/
def ipScanAddrs (ip : String) (acc : List String) :
    List (Option String) → List String × Bool
  | [] => (acc, false)
  | none :: rest => ipScanAddrs ip acc rest
  | some addr :: rest =>
    if addr = ip then (acc, true)
    else ipScanAddrs ip (pySetAdd acc addr) rest

/-- The outer loop of `_validate_ip` over `netifaces.interfaces()`. -/
def ipScanInterfaces (ip : String) (acc : List String) :
    List (List (Option String)) → List String × Bool
  | [] => (acc, false)
  | iface :: rest =>
    match ipScanAddrs ip acc iface with
    | (acc', true) => (acc', true)
    | (acc', false) => ipScanInterfaces ip acc' rest

/-- The accumulator message of `_validate_ip` when the private IP is not
found on any local interface. -/
def ipNotFoundMessage (ip : String) (addresses : List String) : String :=
  "The provided private IP (" ++ ip ++ ") is not associated with any " ++
  "INET-type address available on this machine (available " ++
  "INET-type addresses: " ++ pyJoin ", " addresses ++ "). This will cause " ++
  "installation to fail. If you are certain that this IP address" ++
  " should be used, please set the \x27skip_validations\x27 parameter to " ++
  "\x27false\x27"

/-- Embedding of `validations.py::_validate_ip` (soft): an unparsable
value is skipped; with `check_local_interfaces`, a parsable IP not present
on any local interface appends an error. -/
def _validate_ip (env : Env) (ip_to_validate : String)
    (check_local_interfaces : Bool) (errs : List String) : List String :=
  if !env.ip_parses ip_to_validate then errs
  else if check_local_interfaces then
    match ipScanInterfaces ip_to_validate [] env.interfaces_inet with
    | (_, true) => errs
    | (all_addresses, false) =>
      errs ++ [ipNotFoundMessage ip_to_validate all_addresses]
  else errs

/-- Embedding of `validations.py::_validate_python_version` (soft). -/
def _validate_python_version (env : Env) (cfg : Config)
    (errs : List String) : List String :=
  let python_version := toString env.python_major ++ "." ++
    toString env.python_minor
  if python_version ≠ cfg.expected_python_version then
    errs ++ ["Local python version (`" ++ python_version ++
      "`) does not match expected version (`" ++
      cfg.expected_python_version ++ "`)"]
  else errs

/-- Embedding of `validations.py::_get_host_total_memory`: the parsed
`MemTotal` kB value divided by 1024 (Python 2 integer division). -/
def _get_host_total_memory (env : Env) : Nat := env.memtotal_kb / 1024

/-- Embedding of `validations.py::_validate_sufficient_memory` (soft). -/
def _validate_sufficient_memory (env : Env) (cfg : Config)
    (errs : List String) : List String :=
  let current_memory := _get_host_total_memory env
  let required_memory := cfg.minimum_required_total_physical_memory_in_mb
  if current_memory < required_memory then
    errs ++ ["The provided host does not have enough memory to run " ++
      "Cloudify Manager (Current: " ++ toString current_memory ++
      "MB, Required: " ++ toString required_memory ++ "MB)."]
  else errs

/-- Embedding of `validations.py::_get_available_host_disk_space`:
`f_bavail * f_bsize` bytes floored to GB. -/
def _get_available_host_disk_space (env : Env) : Nat :=
  env.disk_bavail * env.disk_bsize / (1024 * 1024 * 1024)

/-- Embedding of `validations.py::_validate_sufficient_disk_space`
(soft). -/
def _validate_sufficient_disk_space (env : Env) (cfg : Config)
    (errs : List String) : List String :=
  let available_disk_space_in_gb := _get_available_host_disk_space env
  let required_disk_space := cfg.minimum_required_available_disk_space_in_gb
  if available_disk_space_in_gb < required_disk_space then
    errs ++ ["The provided host does not have enough disk space to run " ++
      "Cloudify Manager (Current: " ++ toString available_disk_space_in_gb ++
      "GB, Required: " ++ toString required_disk_space ++ "GB)."]
  else errs

/-- Embedding of `validations.py::_validate_openssl_version` (soft).  The
second whitespace-separated token of the output is the version (an output
with fewer than two tokens, an `IndexError` in the source, is modelled as
the empty string). -/
def _validate_openssl_version (env : Env) (errs : List String) :
    List String :=
  let required_version := "1.0.2"
  match env.openssl_run with
  | .error e =>
    errs ++ ["Cloudify Manager requires OpenSSL " ++ required_version ++
      ", Error: " ++ e]
  | .ok output =>
    let version := (pySplitWs output).getD 1 ""
    if env.loose_version_lt version required_version then
      errs ++ ["Cloudify Manager requires OpenSSL " ++ required_version ++
        ", current version: " ++ version]
    else errs

/-- Embedding of `validations.py::_validate_user_has_sudo_permissions`
(soft). -/
def _validate_user_has_sudo_permissions (env : Env) (errs : List String) :
    List String :=
  if env.sudo_true_rc ≠ 0 then
    errs ++ ["Failed executing \x27sudo\x27. Please ensure that the " ++
      "current user (" ++ env.getuser ++ ") is allowed to execute " ++
      "\x27sudo\x27 commands and impersonate other users using " ++
      "\x27sudo -u\x27. (Error: " ++ env.sudo_true_stderr ++ ")"]
  else errs

/-- Lookup in the `config[MANAGER]` section for the keys `_validate_inputs`
reads. -/
def managerGet (cfg : Config) (key : String) : Option String :=
  if key = "private_ip" then cfg.manager_private_ip
  else if key = "public_ip" then cfg.manager_public_ip
  else none

/-- The message of the `_validate_inputs` hard failure. -/
def inputNotSetMessage (string key flag : String) : String :=
  string ++ " not set in the config.\n" ++
  "Possible solutions are:\n" ++
  "1. Set the `" ++ key ++ "` key in " ++ USER_CONFIG_PATH ++ "\n" ++
  "2. Use the `" ++ flag ++ "` flag when running " ++
  "`cfy_manager install/configure`"

/-- The `required_inputs` table of `_validate_inputs`
(key, flag, display string). -/
def requiredInputs : List (String × String × String) :=
  [("private_ip", "--private-ip", "Private IP"),
   ("public_ip", "--public-ip", "Public IP")]

/-- The loop of `_validate_inputs`: raises on the first falsy required
input. -/
def inputsLoop (cfg : Config) :
    List (String × String × String) → Except Err Unit
  | [] => .ok ()
  | (key, flag, string) :: rest =>
    if pyTruthy (managerGet cfg key) then inputsLoop cfg rest
    else .error (.validationError (inputNotSetMessage string key flag))

/-- Embedding of `validations.py::_validate_inputs` (hard: raises
immediately). -/
def _validate_inputs (cfg : Config) : Except Err Unit :=
  inputsLoop cfg requiredInputs

/-- Embedding of `validations.py::_validate_dependencies` (hard): invokes
every component's `validate_dependencies()` hook in order; the first
raising hook aborts. -/
def _validate_dependencies : List Component → Except Err Unit
  | [] => .ok ()
  | c :: rest =>
    match c.validate_dependencies_error with
    | some e => .error e
    | none => _validate_dependencies rest

/-- Embedding of `validations.py::_services_coexistence_assertion`. -/
def _services_coexistence_assertion (cfg : Config)
    (service_in_list_to_install service_not_in_list_to_install : String) :
    Bool :=
  cfg.services_to_install.contains service_in_list_to_install &&
  !cfg.services_to_install.contains service_not_in_list_to_install

/-- Embedding of `validations.py::_validate_postgres_inputs` — note that
both of its failure paths raise a `ValidationError` directly; the function
never touches the `_errors` accumulator. -/
def _validate_postgres_inputs (cfg : Config) : Except Err Unit := do
  if _services_coexistence_assertion cfg DATABASE_SERVICE MANAGER_SERVICE then
    if (cfg.postgresql_server_enable_remote_connections &&
        !pyTruthy (some cfg.postgresql_server_postgres_password))
       ||
       (!cfg.postgresql_server_enable_remote_connections &&
        pyTruthy (some cfg.postgresql_server_postgres_password)) then
      throw (.validationError ("When using an external database, both " ++
        "enable_remote_connections and postgres_password must be set"))
  if _services_coexistence_assertion cfg MANAGER_SERVICE DATABASE_SERVICE then
    let postgres_host := pySplitFirst ':' cfg.postgresql_client_host
    if (postgres_host = "localhost" || postgres_host = "127.0.0.1") &&
       !pyTruthy (some cfg.postgresql_client_postgres_password) then
      throw (.validationError ("When using an external database, " ++
        "postgres_password must be set"))
  return ()

/-- The message template of
`_validate_postgres_ssl_certificates_provided`. -/
def postgresSslCertsMessage (extra which : String) : String :=
  "If Postgresql requires SSL communication " ++ extra ++ " a " ++
  "certificate and a key for Postgresql must be provided in " ++
  "config.yaml->ssl_inputs->" ++ which

/-- Embedding of
`validations.py::_validate_postgres_ssl_certificates_provided` (raises
directly). -/
def _validate_postgres_ssl_certificates_provided (cfg : Config) :
    Except Err Unit :=
  if !(pyTruthy (cfg.ssl_inputs "postgresql_server_cert_path") &&
       pyTruthy (cfg.ssl_inputs "postgresql_server_key_path") &&
       pyTruthy (cfg.ssl_inputs "ca_cert_path")) then
    if cfg.postgresql_server_ssl_enabled then
      .error (.validationError
        (postgresSslCertsMessage "a CA certificate," "postgresql_server"))
    else .ok ()
  else if !(pyTruthy (cfg.ssl_inputs "postgresql_client_cert_path") &&
            pyTruthy (cfg.ssl_inputs "postgresql_client_key_path")) then
    if cfg.postgresql_client_ssl_enabled then
      .error (.validationError
        (postgresSslCertsMessage "" "postgresql_client"))
    else .ok ()
  else .ok ()

/-- Embedding of
`validations.py::_validate_external_postgres_ssl_enabled` (raises
directly). -/
def _validate_external_postgres_ssl_enabled (cfg : Config) :
    Except Err Unit :=
  if (!cfg.postgresql_server_ssl_enabled &&
      _services_coexistence_assertion cfg DATABASE_SERVICE MANAGER_SERVICE)
     ||
     (!cfg.postgresql_client_ssl_enabled &&
      _services_coexistence_assertion cfg MANAGER_SERVICE DATABASE_SERVICE)
  then
    .error (.validationError
      ("When using an external database, SSL must be enabled"))
  else .ok ()

/-- Embedding of `validations.py::validate_config_access`: a missing file
is fine; an existing file that the current user cannot access in the
required mode raises a `ValidationError`. -/
def validate_config_access (fs : Fs) (write_required : Bool) :
    Except Err Unit :=
  if fs.isfile USER_CONFIG_PATH then
    let access := if write_required then
        fs.readable USER_CONFIG_PATH && fs.writable USER_CONFIG_PATH
      else fs.readable USER_CONFIG_PATH
    let label := if write_required then "readable and writable"
      else "readable"
    if !access then
      .error (.validationError ("Configuration file (" ++ USER_CONFIG_PATH ++
        ") must be " ++ label ++ " by the current user"))
    else .ok ()
  else .ok ()

/-! ## Certificate checks (`components/validations.py`) -/

/-- The `kind` argument of `_check_ssl_file` (only ever called with the
literals `'Key'` and `'Cert'`; the `ValueError` branch for other strings
is unreachable and not modelled). -/
inductive SslKind where
  | key | cert
  deriving DecidableEq, Repr

def SslKind.str : SslKind → String
  | .key => "Key"
  | .cert => "Cert"

/-- Embedding of `validations.py::_check_ssl_file`. -/
def _check_ssl_file (env : Env) (filename : String) (kind : SslKind)
    (password : Option String) : Except Err Unit :=
  if !env.isfile filename then
    .error (.validationError
      (kind.str ++ " file " ++ filename ++ " does not exist"))
  else
    let check_command :=
      match kind with
      | .key =>
        ["openssl", "rsa", "-in", filename, "-check", "-noout"] ++
        (if pyTruthy password then ["-passin", "pass:" ++ pyGetD password]
         else [])
      | .cert => ["openssl", "x509", "-in", filename, "-noout"]
    if env.sudo_rc check_command ≠ 0 then
      let password_err :=
        if pyTruthy password then "(or the provided password is incorrect)"
        else ""
      .error (.validationError (kind.str ++ " file " ++ filename ++
        " password is invalid " ++ password_err))
    else .ok ()

/-- The modulus-mismatch message of `check_certificates`. -/
def certMismatchMessage
    (key_filename component key_path cert_filename cert_path : String) :
    String :=
  "Key " ++ key_filename ++ " (" ++ component ++ "." ++ key_path ++
  ") does not match the cert " ++ cert_filename ++ " (" ++ component ++
  "." ++ cert_path ++ ")"

/-- Embedding of `validations.py::check_certificates`.  `sectionGet` is
the `config[component]` mapping.  The line
`key_filename += ['-passin', 'pass:{0}'.format(password)]` of the source
appends a Python list to the string `key_filename` and therefore raises
`TypeError`; it is embedded by `pyStrPlusList`. -/
def check_certificates (env : Env) (component : String)
    (sectionGet : String → Option String)
    (cert_path key_path ca_path key_password : String)
    (require_non_ca_certs : Bool) :
    Except Err (Option String × Option String × Option String ×
      Option String) := do
  let cert_filename := sectionGet cert_path
  let key_filename := sectionGet key_path
  let ca_filename := sectionGet ca_path
  let password := sectionGet key_password
  if !pyTruthy cert_filename && !pyTruthy key_filename &&
      require_non_ca_certs then
    let failing :=
      (if pyTruthy password then ["key_password"] else []) ++
      (if pyTruthy ca_filename then ["ca_path"] else [])
    if failing ≠ [] then
      throw (.validationError ("If " ++ pyJoin " or " failing ++
        " was provided, both cert_path and key_path must be provided in " ++
        component))
  else if pyTruthy cert_filename && pyTruthy key_filename then
    _check_ssl_file env (pyGetD key_filename) .key password
    _check_ssl_file env (pyGetD cert_filename) .cert none
    let key_modulus_command := ["openssl", "rsa", "-noout", "-modulus",
      "-in", pyGetD key_filename]
    if pyTruthy password then
      -- Source: `key_filename += ['-passin', ...]` — a str/list concatenation.
      let _key_filename ← pyStrPlusList (pyGetD key_filename)
        ["-passin", "pass:" ++ pyGetD password]
      pure ()
    let cert_modulus_command := ["openssl", "x509", "-noout", "-modulus",
      "-in", pyGetD cert_filename]
    let key_modulus := pyStrip (env.sudo_stdout key_modulus_command)
    let cert_modulus := pyStrip (env.sudo_stdout cert_modulus_command)
    if cert_modulus ≠ key_modulus then
      throw (.validationError (certMismatchMessage (pyGetD key_filename)
        component key_path (pyGetD cert_filename) cert_path))
  else if pyTruthy cert_filename || pyTruthy key_filename then
    throw (.validationError ("Either both cert_path and key_path must be " ++
      "provided, or neither."))
  if pyTruthy ca_filename then
    _check_ssl_file env (pyGetD ca_filename) .cert none
    if pyTruthy cert_filename then
      if env.sudo_raises_called_process_error
          ["openssl", "verify", "-CAfile", pyGetD ca_filename,
           pyGetD cert_filename] then
        throw (.validationError ("Provided certificate " ++
          pyGetD cert_filename ++ " was not signed by provided CA " ++
          pyGetD ca_filename))
  return (cert_filename, key_filename, ca_filename, password)

/-- Embedding of `validations.py::_check_internal_ca_cert`. -/
def _check_internal_ca_cert (env : Env) (cfg : Config) : Except Err Unit := do
  if pyTruthy (cfg.ssl_inputs "ca_key_path") &&
      pyTruthy (cfg.ssl_inputs "ca_cert_path") then
    _check_ssl_file env (pyGetD (cfg.ssl_inputs "ca_key_path")) .key
      (cfg.ssl_inputs "ca_key_password")
    _check_ssl_file env (pyGetD (cfg.ssl_inputs "ca_cert_path")) .cert none
  else if pyTruthy (cfg.ssl_inputs "ca_key_path") &&
      !pyTruthy (cfg.ssl_inputs "ca_cert_path") then
    throw (.validationError ("Internal CA key provided, but the internal " ++
      "CA cert was not"))
  else if pyTruthy (cfg.ssl_inputs "ca_cert_path") &&
      !pyTruthy (cfg.ssl_inputs "ca_key_path") then
    if !pyTruthy (cfg.ssl_inputs "internal_cert_path") ||
        !pyTruthy (cfg.ssl_inputs "internal_key_path") then
      throw (.validationError ("If ca_cert_path was provided, but " ++
        "ca_key_path was not provided, both " ++
        "internal_cert_path and internal_key_path " ++
        "must be provided."))
  else if pyTruthy (cfg.ssl_inputs "ca_key_password") then
    throw (.validationError ("If ca_key_password was provided, both " ++
      "ca_cert_path and ca_key_path must be " ++
      "provided."))

/-- The loop of `_validate_cert_inputs` over the five ssl-input name
groups. -/
def certInputsLoop (env : Env) (cfg : Config) :
    List String → Except Err Unit
  | [] => .ok ()
  | ssl_input :: rest => do
    let _ ← check_certificates env "ssl_inputs" cfg.ssl_inputs
      (ssl_input ++ "_cert_path") (ssl_input ++ "_key_path")
      (ssl_input ++ "_ca_path") (ssl_input ++ "_key_password") true
    certInputsLoop env cfg rest

/-- Embedding of `validations.py::_validate_cert_inputs` (raises directly
via its callees). -/
def _validate_cert_inputs (env : Env) (cfg : Config) : Except Err Unit := do
  _check_internal_ca_cert env cfg
  certInputsLoop env cfg
    ["internal", "postgresql_server", "postgresql_client", "external",
     "external_ca"]

/-! ## The validation pass (`validations.py::validate`) -/

/-- Embedding of `validations.py::validate`.  `errors0` is the content of
the module-level `_errors` list when the call starts (the source never
resets it).  The result is the final accumulator on success, or the
propagated exception.  `_validate_active_manager_access` only calls
`is_port_open` and discards the result, so it has no effect on the
accumulator and no raise; it is represented by a comment below. -/
def validate (cfg : Config) (env : Env) (components : List Component)
    (errors0 : List String) (skip_validations only_install : Bool) :
    Except Err (List String) := do
  if !only_install then
    -- Inputs always need to be validated, otherwise the install won't work
    _validate_inputs cfg
  -- These dependencies also need to always be validated
  _validate_dependencies components
  if cfg.validations_skip_validations || skip_validations then
    return errors0
  let errs ← do
    if !only_install then
      let errs := _validate_ip env (pyGetD cfg.manager_private_ip) true
        errors0
      let errs := _validate_ip env (pyGetD cfg.manager_public_ip) false errs
      let errs :=
        if !(cfg.postgresql_client_host == "localhost" ||
             cfg.postgresql_client_host == "127.0.0.1") then
          _validate_ip env cfg.postgresql_client_host false errs
        else errs
      -- if config[CLUSTER][ACTIVE_MANAGER_IP]:
      --   _validate_active_manager_access()   (result discarded; no effect)
      let errs := _validate_python_version env cfg errs
      let errs := _validate_sufficient_memory env cfg errs
      _validate_postgres_inputs cfg
      _validate_external_postgres_ssl_enabled cfg
      _validate_postgres_ssl_certificates_provided cfg
      _validate_cert_inputs env cfg
      pure errs
    else
      pure errors0
  let errs := _validate_supported_distros env cfg errs
  let errs := _validate_openssl_version env errs
  let errs := _validate_user_has_sudo_permissions env errs
  let errs := _validate_sufficient_disk_space env cfg errs
  if errs ≠ [] then
    throw (.validationError ("Validation error(s):\n" ++ pyJoin "\n" errs))
  return errs

/-! ## Execution preparation (`main.py::_prepare_execution`) -/

/-- The successive steps of `main.py::_prepare_execution` after console
logging. -/
inductive PrepStep where
  | validateConfigAccess
  | loadConfig
  | populateConfigValues
  | createComponentObjects
  deriving DecidableEq, Repr

/-- Embedding of `main.py::_prepare_execution` as the sequence of steps it
performs with an optional propagated exception: the config-access
pre-check runs first, and an exception there prevents every later step
(in particular `config.load_config()`).  `populate_result` stands for the
outcome of `_populate_and_validate_config_values` (whose internals touch
config state not modelled here). -/
def _prepare_execution (fs : Fs) (config_write_required only_install : Bool)
    (populate_result : Except Err Unit) : List PrepStep × Option Err :=
  match validate_config_access fs config_write_required with
  | .error e => ([PrepStep.validateConfigAccess], some e)
  | .ok () =>
    if !only_install then
      match populate_result with
      | .error e =>
        ([PrepStep.validateConfigAccess, PrepStep.loadConfig,
          PrepStep.populateConfigValues], some e)
      | .ok () =>
        ([PrepStep.validateConfigAccess, PrepStep.loadConfig,
          PrepStep.populateConfigValues, PrepStep.createComponentObjects],
         none)
    else
      ([PrepStep.validateConfigAccess, PrepStep.loadConfig,
        PrepStep.createComponentObjects], none)

/-! ## Broker cluster join (`components/rabbitmq/rabbitmq.py`) -/

/-- Embedding of `rabbitmq.py::RabbitMQ._add_missing_nodename_` + `prefix`
(that source method name cannot be used verbatim here): prepend
`rabbit@` when the nodename has no `@`. -/
def addMissingNodenamePfx (nodename : String) : String :=
  if !pyCharIn '@' nodename then "rabbit@" ++ nodename else nodename

/-- The `ClusteringError` message of `_possibly_join_cluster`. -/
def clusterJoinFailMessage (num : Nat) (target_node output : String) :
    String :=
  "Node did not join cluster within " ++ toString num ++ " attempts. " ++
  "Attempted to join to " ++ target_node ++ ". " ++
  "Last cluster status output was: " ++ output ++ "."

/-- Observable behaviour of the join-convergence loop: the 1-based attempt
numbers at which `cluster_status` was polled, the total seconds slept, and
the outcome. -/
structure PollResult where
  polls : List Nat
  slept : Nat
  outcome : Except Err Unit
  deriving DecidableEq, Repr

/-- The `while attempt != max_attempts` loop of
`rabbitmq.py::_possibly_join_cluster`: on each iteration the attempt
counter is incremented, `cluster_status` is polled (`stat attempt` is its
`aggr_stdout`), and unless both required nodes appear in the output the
loop raises on the final attempt or sleeps `delay` seconds and retries.
`fuel` is `max_attempts - attempt`, which makes the recursion
structural. -/
def clusterJoinLoop (stat : Nat → String) (required : List String)
    (join_node : String) (max_attempts delay : Nat) :
    Nat → Nat → List Nat → Nat → PollResult
  | 0, _attempt, polls, slept => ⟨polls, slept, .ok ()⟩
  | fuel + 1, attempt, polls, slept =>
    let attempt' := attempt + 1
    let polls' := polls ++ [attempt']
    if !(required.all fun node => pyInStr node (stat attempt')) then
      if attempt' = max_attempts then
        ⟨polls', slept, .error (.clusteringError
          (clusterJoinFailMessage max_attempts join_node (stat attempt')))⟩
      else
        clusterJoinLoop stat required join_node max_attempts delay fuel
          attempt' polls' (slept + delay)
    else ⟨polls', slept, .ok ()⟩

/-- Embedding of `rabbitmq.py::_possibly_join_cluster` from the retry
loop on (the preceding `rabbitmqctl` stop_app/reset/join_cluster/start_app
invocations are unmodelled external effects).  `join_cluster` is
`config[RABBITMQ]['join_cluster']` and `nodename` is
`config[RABBITMQ]['nodename']`; a falsy `join_cluster` makes the method
return immediately.  In the source `attempt = 0`, `max_attempts = 10`,
`delay = 3`. -/
def _possibly_join_cluster (join_cluster nodename : String)
    (stat : Nat → String) : PollResult :=
  if join_cluster.data.isEmpty then ⟨[], 0, .ok ()⟩
  else
    let join_node := addMissingNodenamePfx join_cluster
    clusterJoinLoop stat [join_node, nodename] join_node 10 3 10 0 [] 0

/-! ## Concrete fixtures used by witnesses and counterexamples -/

/-- A host environment on which every soft validation passes. -/
def envOK : Env where
  platform_distro := "CentOS"
  platform_version := "7.6"
  python_major := 2
  python_minor := 7
  memtotal_kb := 8 * 1024 * 1024
  disk_bavail := 10 * 1024 * 1024
  disk_bsize := 1024
  openssl_run := .ok "OpenSSL 1.0.2k-fips  26 Jan 2017"
  loose_version_lt := fun _ _ => false
  getuser := "cfyuser"
  sudo_true_rc := 0
  sudo_true_stderr := ""
  interfaces_inet := [[some "10.0.0.1"]]
  ip_parses := fun _ => true
  isfile := fun _ => false
  sudo_rc := fun _ => 0
  sudo_stdout := fun _ => ""
  sudo_raises_called_process_error := fun _ => false

/-- A configuration on which every validation passes on `envOK`. -/
def cfgOK : Config where
  services_to_install := []
  manager_private_ip := some "10.0.0.1"
  manager_public_ip := some "10.0.0.1"
  postgresql_server_enable_remote_connections := false
  postgresql_server_postgres_password := ""
  postgresql_server_ssl_enabled := false
  postgresql_client_host := "localhost"
  postgresql_client_postgres_password := ""
  postgresql_client_ssl_enabled := false
  ssl_inputs := fun _ => none
  cluster_active_manager_ip := none
  validations_skip_validations := false
  supported_distros := ["centos", "rhel"]
  supported_distro_versions := ["7"]
  expected_python_version := "2.7"
  minimum_required_total_physical_memory_in_mb := 1024
  minimum_required_available_disk_space_in_gb := 5

/-- `cfgOK` with the manager private IP unset. -/
def cfgNoPrivateIp : Config := { cfgOK with manager_private_ip := none }

/-- A database-only configuration with `enable_remote_connections = true`
and an empty `postgres_password`. -/
def cfgDbOnlyRemoteNoPw : Config :=
  { cfgOK with
    services_to_install := [DATABASE_SERVICE],
    postgresql_server_enable_remote_connections := true,
    postgresql_server_postgres_password := "" }

/-- A host with no marker files and no user config file. -/
def fsEmpty : Fs :=
  { isfile := fun _ => false, readable := fun _ => false,
    writable := fun _ => false }

/-- A host where the user config file exists but is neither readable nor
writable by the invoking user. -/
def fsConfigUnreadable : Fs :=
  { isfile := fun p => p = USER_CONFIG_PATH, readable := fun _ => false,
    writable := fun _ => false }

/-- Two ordinary (non-skipped) components. -/
def demoComponents : List Component :=
  [{ name := "rabbitmq", skip_installation := false,
     validate_dependencies_error := none },
   { name := "postgresql_server", skip_installation := false,
     validate_dependencies_error := none }]

/-- A component constructed with `skip_installation = True`. -/
def skippedComponent : Component :=
  { name := "stage", skip_installation := true,
    validate_dependencies_error := none }

/-- A mixed component list containing `skippedComponent`. -/
def demoWithSkipped : List Component :=
  [{ name := "rabbitmq", skip_installation := false,
     validate_dependencies_error := none },
   skippedComponent]

/-- The names of the `remove()` calls of an event sequence, in order. -/
def removeNames (events : List Event) : List String :=
  events.filterMap fun e =>
    match e with
    | .remove n => some n
    | _ => none

/-- The names of the `install()` calls of an event sequence, in order. -/
def installNames (events : List Event) : List String :=
  events.filterMap fun e =>
    match e with
    | .install n => some n
    | _ => none


/-- A status oracle for the cluster-join poll that shows both required
nodes from attempt 3 on. -/
def statJoin3 : Nat → String := fun k =>
  if k = 3 then "Cluster status of node rabbit@node1 ...,rabbit@node2" else ""

/-- An environment for the certificate checks: every file exists, every
check command succeeds, and the key and cert moduli differ. -/
def certEnv : Env :=
  { envOK with
    isfile := fun _ => true,
    sudo_stdout := fun cmd =>
      if cmd = ["openssl", "x509", "-noout", "-modulus", "-in", "/c.crt"]
      then "Modulus=B" else "Modulus=A" }

/-- An `ssl_inputs`-style section with a cert, a key and a key password. -/
def sslSectionPw : String → Option String := fun k =>
  if k = "cert_path" then some "/c.crt"
  else if k = "key_path" then some "/k.key"
  else if k = "key_password" then some "secret"
  else none

/-- An `ssl_inputs`-style section with a cert and a key but no key
password. -/
def sslSectionNoPw : String → Option String := fun k =>
  if k = "cert_path" then some "/c.crt"
  else if k = "key_path" then some "/k.key"
  else none


/-- A component whose `validate_dependencies()` hook raises. -/
def depFailComponent : Component :=
  { name := "restservice", skip_installation := false,
    validate_dependencies_error :=
      some (.validationError "dependency missing") }

/-- `cfgOK` with both manager IPs unset. -/
def cfgNoIps : Config :=
  { cfgOK with manager_private_ip := none, manager_public_ip := none }


/-- `envOK` with a Python 3.6 interpreter (fails the expected-version
soft check). -/
def envBadPython : Env := { envOK with python_major := 3, python_minor := 6 }


/-! ## Theorems -/

/-- Claim C1: with the spec-modelled registry (where the broker component
belongs to both the queue service and the manager service),
`_get_components_list` sorts the requested services by installation order
and concatenates their component lists but performs no deduplication, so
the shared component appears twice — contradicting its own docstring
("return a unique list") and the claimed first-seen-order dedup. -/
theorem get_components_list_dup :
    _get_components_list specServiceComponents specServiceInstallationOrder
      ["manager_service", "queue_service"] =
      ["rabbitmq", "rabbitmq", "postgresql_client", "restservice"] ∧
    ¬ (_get_components_list specServiceComponents specServiceInstallationOrder
      ["manager_service", "queue_service"]).Nodup := by
  constructor
  · decide
  · decide

theorem removeNames_flatMap (s : Bool) (l : List Component) :
    removeNames (l.flatMap fun c =>
      (if s && !c.skip_installation then [Event.stop c.name] else []) ++
      [Event.remove c.name]) = l.map Component.name := by
  induction l with
  | nil => rfl
  | cons c rest ih =>
    simp only [List.flatMap_cons, removeNames, List.filterMap_append] at ih ⊢
    rw [ih]
    split <;> simp

theorem installNames_guarded (l : List Component) :
    installNames (l.flatMap fun c =>
      if !c.skip_installation then [Event.install c.name] else []) =
    (l.filter fun c => !c.skip_installation).map Component.name := by
  induction l with
  | nil => rfl
  | cons c rest ih =>
    simp only [List.flatMap_cons, installNames, List.filterMap_append] at ih ⊢
    rw [ih]
    by_cases hs : c.skip_installation <;> simp [hs, List.filter_cons]

theorem installNames_configure_part (l : List Component) (oi : Bool) :
    installNames (if !oi then l.flatMap fun c =>
      if !c.skip_installation then [Event.configure c.name] else [] else []) = [] := by
  split
  · induction l with
    | nil => rfl
    | cons c rest ih =>
      simp only [List.flatMap_cons, installNames, List.filterMap_append] at ih ⊢
      rw [ih]
      split <;> simp
  · rfl

theorem flatMap_congr_noskip (l : List Component)
    (h : ∀ c ∈ l, c.skip_installation = false) :
    (l.flatMap fun c =>
      (if true && !c.skip_installation then [Event.stop c.name] else []) ++
      [Event.remove c.name]) =
    l.flatMap fun c => [Event.stop c.name, Event.remove c.name] := by
  induction l with
  | nil => rfl
  | cons c rest ih =>
    simp only [List.flatMap_cons]
    rw [h c (by simp), ih (fun c' hc' => h c' (by simp [hc']))]
    rfl

/-- Claim C5: the `remove` command iterates the resolved component list in
exactly reversed order, driving `stop()` before `remove()` on each
component (here with the manager configured and no skipped components),
and its sequence of `remove()` calls is exactly the reverse of the
`install` command's sequence of `install()` calls. -/
theorem remove_is_reverse_of_install (comps : List Component)
    (h : ∀ c ∈ comps, c.skip_installation = false) :
    removeCmdCalls comps true =
      comps.reverse.flatMap
        (fun c => [Event.stop c.name, Event.remove c.name]) ∧
    ∀ oi : Bool,
      removeNames (removeCmdCalls comps true) =
        (installNames (installCmdCalls comps oi)).reverse := by
  constructor
  · exact flatMap_congr_noskip comps.reverse
      (fun c hc => h c (List.mem_reverse.mp hc))
  · intro oi
    have h1 : removeNames (removeCmdCalls comps true) =
        comps.reverse.map Component.name := removeNames_flatMap true comps.reverse
    have h2 : installNames (installCmdCalls comps oi) =
        (comps.filter fun c => !c.skip_installation).map Component.name := by
      simp only [installCmdCalls, installNames, List.filterMap_append]
      have := installNames_guarded comps
      have h3 := installNames_configure_part comps oi
      simp only [installNames] at this h3
      rw [this, h3, List.append_nil]
    rw [h1, h2, List.filter_eq_self.mpr (fun c hc => by simp [h c hc]),
      List.map_reverse]

theorem not_mem_guarded_flatMap (l : List Component) (c : Component)
    (hskip : c.skip_installation = true)
    (hname : ∀ c' ∈ l, c'.name = c.name → c' = c)
    (mk : String → Event) (hmk : ∀ a b, mk a = mk b → a = b) :
    mk c.name ∉ l.flatMap fun c' =>
      if !c'.skip_installation then [mk c'.name] else [] := by
  intro hmem
  simp only [List.mem_flatMap] at hmem
  obtain ⟨c', hc', hev⟩ := hmem
  by_cases hs : c'.skip_installation
  · simp [hs] at hev
  · simp [hs] at hev
    have hc : c' = c := hname c' hc' (hmk _ _ hev.symm)
    rw [hc] at hs
    exact hs hskip

/-- Counterexample for C6: a component constructed with
`skip_installation = True` still receives a `remove()` call from the
`remove` command (the loop guards only `stop()` with the flag). -/
theorem remove_called_on_skipped :
    removeCmdCalls [skippedComponent] true = [Event.remove "stage"] ∧
    skippedComponent.skip_installation = true ∧
    Event.remove skippedComponent.name ∈ removeCmdCalls [skippedComponent] true := by
  refine ⟨by decide, by decide, by decide⟩

/-- Claim C6 (amended): a component with `skip_installation = True` whose
name is unique in the list is excluded from `install()`, `configure()`,
`start()` and `stop()` in every command the orchestrator drives, but the
`remove` command still invokes its `remove()`. -/
theorem skip_installation_excluded (comps : List Component) (c : Component)
    (hc : c ∈ comps) (hskip : c.skip_installation = true)
    (hname : ∀ c' ∈ comps, c'.name = c.name → c' = c) :
    (∀ oi : Bool, Event.install c.name ∉ installCmdCalls comps oi ∧
        Event.configure c.name ∉ installCmdCalls comps oi) ∧
    (∀ cdb : Bool, Event.stop c.name ∉ configureCmdCalls comps cdb ∧
        Event.configure c.name ∉ configureCmdCalls comps cdb) ∧
    Event.start c.name ∉ startCmdCalls comps ∧
    Event.stop c.name ∉ stopCmdCalls comps ∧
    (∀ s : Bool, Event.stop c.name ∉ removeCmdCalls comps s ∧
        Event.remove c.name ∈ removeCmdCalls comps s) := by
  have hinst := not_mem_guarded_flatMap comps c hskip hname Event.install
    (fun a b hab => by cases hab; rfl)
  have hconf := not_mem_guarded_flatMap comps c hskip hname Event.configure
    (fun a b hab => by cases hab; rfl)
  have hstart := not_mem_guarded_flatMap comps c hskip hname Event.start
    (fun a b hab => by cases hab; rfl)
  have hstop := not_mem_guarded_flatMap comps c hskip hname Event.stop
    (fun a b hab => by cases hab; rfl)
  have hnameR : ∀ c' ∈ comps.reverse, c'.name = c.name → c' = c :=
    fun c' hc' => hname c' (List.mem_reverse.mp hc')
  refine ⟨?_, ?_, hstart, hstop, ?_⟩
  · intro oi
    constructor
    · intro hmem
      rcases List.mem_append.mp hmem with hmem | hmem
      · exact hinst hmem
      · split at hmem
        · simp only [List.mem_flatMap] at hmem
          obtain ⟨c', _, hev⟩ := hmem
          split at hev <;> simp at hev
        · simp at hmem
    · intro hmem
      rcases List.mem_append.mp hmem with hmem | hmem
      · simp only [List.mem_flatMap] at hmem
        obtain ⟨c', _, hev⟩ := hmem
        split at hev <;> simp at hev
      · split at hmem
        · exact hconf hmem
        · simp at hmem
  · intro cdb
    constructor
    · intro hmem
      rcases List.mem_append.mp hmem with hmem | hmem
      · split at hmem
        · exact hstop hmem
        · simp at hmem
      · simp only [List.mem_flatMap] at hmem
        obtain ⟨c', _, hev⟩ := hmem
        split at hev <;> simp at hev
    · intro hmem
      rcases List.mem_append.mp hmem with hmem | hmem
      · split at hmem
        · simp only [List.mem_flatMap] at hmem
          obtain ⟨c', _, hev⟩ := hmem
          split at hev <;> simp at hev
        · simp at hmem
      · exact hconf hmem
  · intro s
    constructor
    · intro hmem
      simp only [removeCmdCalls, List.mem_flatMap] at hmem
      obtain ⟨c', hc', hev⟩ := hmem
      rcases List.mem_append.mp hev with hev | hev
      · split at hev
        · rename_i hcond
          simp only [List.mem_singleton] at hev
          have hnm : c.name = c'.name := by injection hev
          have hcc : c' = c := hnameR c' hc' hnm.symm
          subst hcc
          rw [Bool.and_eq_true] at hcond
          rw [hskip] at hcond
          simp at hcond
        · simp at hev
      · simp at hev
    · simp only [removeCmdCalls, List.mem_flatMap]
      exact ⟨c, List.mem_reverse.mpr hc, by simp⟩

/-- Witness for C6 at a concrete list containing a skipped component. -/
theorem skip_installation_excluded_witness :
    (skippedComponent ∈ demoWithSkipped ∧
     skippedComponent.skip_installation = true ∧
     (∀ c' ∈ demoWithSkipped, c'.name = skippedComponent.name →
        c' = skippedComponent)) ∧
    (∀ oi : Bool,
        Event.install skippedComponent.name ∉ installCmdCalls demoWithSkipped oi ∧
        Event.configure skippedComponent.name ∉ installCmdCalls demoWithSkipped oi) ∧
    (∀ cdb : Bool,
        Event.stop skippedComponent.name ∉ configureCmdCalls demoWithSkipped cdb ∧
        Event.configure skippedComponent.name ∉ configureCmdCalls demoWithSkipped cdb) ∧
    Event.start skippedComponent.name ∉ startCmdCalls demoWithSkipped ∧
    Event.stop skippedComponent.name ∉ stopCmdCalls demoWithSkipped ∧
    (∀ s : Bool,
        Event.stop skippedComponent.name ∉ removeCmdCalls demoWithSkipped s ∧
        Event.remove skippedComponent.name ∈ removeCmdCalls demoWithSkipped s) :=
  ⟨⟨by decide, by decide, by decide⟩,
   skip_installation_excluded demoWithSkipped skippedComponent (by decide)
     (by decide) (by decide)⟩

/-- Witness for C5 at a concrete two-component list. -/
theorem remove_is_reverse_of_install_witness :
    (∀ c ∈ demoComponents, c.skip_installation = false) ∧
    (removeCmdCalls demoComponents true =
      demoComponents.reverse.flatMap
        (fun c => [Event.stop c.name, Event.remove c.name]) ∧
     ∀ oi : Bool,
       removeNames (removeCmdCalls demoComponents true) =
         (installNames (installCmdCalls demoComponents oi)).reverse) :=
  ⟨by decide, remove_is_reverse_of_install demoComponents (by decide)⟩

theorem except_error_bind {e : Err} {f : Unit → Except Err (List Event)} :
    (Except.error e : Except Err Unit) >>= f = .error e := rfl

/-- Claim C7: when the on-disk installed marker is absent, the `start`
command raises a `BootstrapError` whose message names `cfy_manager
install` as the command to run first, and returns before any component's
`start()` (the event list is only produced on success). -/
theorem start_requires_install_marker (fs : Fs) (comps : List Component)
    (h : fs.isfile INITIAL_INSTALL_FILE = false) :
    startCmd fs comps = .error (.bootstrapError
      (preparedErrorMessage "install" INITIAL_INSTALL_FILE "start")) ∧
    ∃ p q, preparedErrorMessage "install" INITIAL_INSTALL_FILE "start" =
      p ++ "`cfy_manager install`" ++ q := by
  constructor
  · simp [startCmd, _validate_manager_prepared, _is_manager_installed, h,
      except_error_bind]
  · exact ⟨"Could not find /etc/cloudify/.installed.\nThis most likely means that you need to run ",
      " before running `cfy_manager start`", by decide⟩

/-- Witness for C7 on a host with no marker files. -/
theorem start_requires_install_marker_witness :
    fsEmpty.isfile INITIAL_INSTALL_FILE = false ∧
    (startCmd fsEmpty demoComponents = .error (.bootstrapError
      (preparedErrorMessage "install" INITIAL_INSTALL_FILE "start")) ∧
     ∃ p q, preparedErrorMessage "install" INITIAL_INSTALL_FILE "start" =
       p ++ "`cfy_manager install`" ++ q) :=
  ⟨by decide, start_requires_install_marker fsEmpty demoComponents (by decide)⟩

/-- Counterexample for C8: when the user config file exists but is not
readable, the pre-check raises a `ValidationError`, not the
`ConfigAccessError` kind the spec names. -/
theorem config_access_raises_validation_error_kind :
    errTag (validate_config_access fsConfigUnreadable false) =
      some ErrTag.validationErr ∧
    ErrTag.validationErr ≠ ErrTag.configAccessErr := by
  exact ⟨by decide, by decide⟩

/-- Claim C8 (amended): when the user config file exists but is not
accessible in the required mode, `validate_config_access` raises a
`ValidationError` naming the path and the required access, and
`_prepare_execution` stops at that pre-check — `config.load_config()` is
never reached. -/
theorem config_access_precheck (fs : Fs) (wr oi : Bool)
    (pr : Except Err Unit)
    (hfile : fs.isfile USER_CONFIG_PATH = true)
    (hacc : (if wr then fs.readable USER_CONFIG_PATH &&
              fs.writable USER_CONFIG_PATH
             else fs.readable USER_CONFIG_PATH) = false) :
    validate_config_access fs wr = .error (.validationError
      ("Configuration file (" ++ USER_CONFIG_PATH ++ ") must be " ++
       (if wr then "readable and writable" else "readable") ++
       " by the current user")) ∧
    (_prepare_execution fs wr oi pr).1 = [PrepStep.validateConfigAccess] ∧
    PrepStep.loadConfig ∉ (_prepare_execution fs wr oi pr).1 := by
  have h1 : validate_config_access fs wr = .error (.validationError
      ("Configuration file (" ++ USER_CONFIG_PATH ++ ") must be " ++
       (if wr then "readable and writable" else "readable") ++
       " by the current user")) := by
    cases wr <;> simp_all [validate_config_access]
  refine ⟨h1, ?_, ?_⟩ <;> simp [_prepare_execution, h1]

/-- Witness for C8 on a host whose config file is unreadable. -/
theorem config_access_precheck_witness :
    (fsConfigUnreadable.isfile USER_CONFIG_PATH = true ∧
     fsConfigUnreadable.readable USER_CONFIG_PATH = false) ∧
    (validate_config_access fsConfigUnreadable false = .error (.validationError
      ("Configuration file (" ++ USER_CONFIG_PATH ++ ") must be " ++
       "readable" ++ " by the current user")) ∧
     (_prepare_execution fsConfigUnreadable false false (.ok ())).1 =
       [PrepStep.validateConfigAccess] ∧
     PrepStep.loadConfig ∉
       (_prepare_execution fsConfigUnreadable false false (.ok ())).1) := by
  refine ⟨⟨by decide, by decide⟩, ?_⟩
  have := config_access_precheck fsConfigUnreadable false false (.ok ())
    (by decide) (by decide)
  simpa using this

theorem range_map_shift (a n : Nat) :
    (List.range (n + 1)).map (fun i => a + i + 1) =
      (a + 1) :: (List.range n).map (fun i => a + 1 + i + 1) := by
  rw [List.range_succ_eq_map]
  simp only [List.map_cons, List.map_map, Nat.add_zero]
  refine congrArg (_ :: ·) ?_
  apply List.map_congr_left
  intro i _
  simp [Function.comp]
  omega

theorem clusterJoinLoop_never (stat : Nat → String) (required : List String)
    (jn : String) (ma delay : Nat) :
    ∀ fuel attempt polls slept, attempt + fuel = ma → 0 < fuel →
    (∀ k, attempt < k → k ≤ ma →
      (required.all fun node => pyInStr node (stat k)) = false) →
    clusterJoinLoop stat required jn ma delay fuel attempt polls slept =
      ⟨polls ++ (List.range fuel).map (fun i => attempt + i + 1),
       slept + delay * (fuel - 1),
       .error (.clusteringError (clusterJoinFailMessage ma jn (stat ma)))⟩ := by
  intro fuel
  induction fuel with
  | zero => intro attempt polls slept _ h0 _; omega
  | succ f ih =>
    intro attempt polls slept hsum _ hfail
    have hk := hfail (attempt + 1) (by omega) (by omega)
    simp only [clusterJoinLoop, hk, Bool.not_false, if_true]
    cases f with
    | zero =>
      have hma : attempt + 1 = ma := by omega
      subst hma
      have h1 : List.range 1 = [0] := rfl
      simp [h1]
    | succ f' =>
      have hne : ¬ (attempt + 1 = ma) := by omega
      rw [if_neg hne,
        ih (attempt + 1) (polls ++ [attempt + 1]) (slept + delay)
          (by omega) (by omega)
          (fun k hk1 hk2 => hfail k (by omega) hk2)]
      rw [range_map_shift attempt (f' + 1)]
      simp only [List.append_assoc, List.singleton_append]
      refine congrArg₂ (fun a b => PollResult.mk a b _) rfl ?_
      simp only [Nat.add_sub_cancel]
      rw [Nat.mul_succ]
      omega

theorem clusterJoinLoop_joins (stat : Nat → String) (required : List String)
    (jn : String) (ma delay k : Nat) :
    ∀ fuel attempt polls slept, attempt + fuel = ma →
    attempt < k → k ≤ ma →
    (∀ j, attempt < j → j < k →
      (required.all fun node => pyInStr node (stat j)) = false) →
    (required.all fun node => pyInStr node (stat k)) = true →
    clusterJoinLoop stat required jn ma delay fuel attempt polls slept =
      ⟨polls ++ (List.range (k - attempt)).map (fun i => attempt + i + 1),
       slept + delay * (k - attempt - 1), .ok ()⟩ := by
  intro fuel
  induction fuel with
  | zero => intro attempt polls slept hsum h1 h2 _ _; omega
  | succ f ih =>
    intro attempt polls slept hsum hlt hle hfail hjoin
    by_cases hk : attempt + 1 = k
    · subst hk
      simp only [clusterJoinLoop, hjoin, Bool.not_true, if_false]
      have hr : attempt + 1 - attempt = 1 := by omega
      have h1 : List.range 1 = [0] := rfl
      simp [hr, h1]
    · have hkf := hfail (attempt + 1) (by omega) (by omega)
      simp only [clusterJoinLoop, hkf, Bool.not_false, if_true]
      have hne : ¬ (attempt + 1 = ma) := by omega
      rw [if_neg hne,
        ih (attempt + 1) (polls ++ [attempt + 1]) (slept + delay)
          (by omega) (by omega) (by omega)
          (fun j hj1 hj2 => hfail j (by omega) hj2) hjoin]
      have hka : k - attempt = (k - (attempt + 1)) + 1 := by omega
      rw [hka, range_map_shift attempt (k - (attempt + 1))]
      simp only [List.append_assoc, List.singleton_append]
      refine congrArg₂ (fun a b => PollResult.mk a b _) rfl ?_
      rw [Nat.add_sub_cancel]
      have hm1 : 1 ≤ k - (attempt + 1) := by omega
      obtain ⟨m, hm⟩ := Nat.exists_eq_add_of_le hm1
      rw [hm, Nat.add_sub_cancel_left, Nat.mul_add]
      omega


/-- Claim C9: the broker cluster-join convergence check polls
`cluster_status` at most 10 times with a 3-second sleep between attempts
(27 seconds total when exhausted); if the two required nodes never appear
it raises `ClusteringError` after exactly 10 polls, and if they appear on
attempt `k ≤ 10` the loop exits successfully after exactly `k` polls and
`3 * (k - 1)` seconds of sleeping. -/
theorem rabbit_join_retry_budget (join_cluster nodename : String)
    (stat : Nat → String) (hj : join_cluster.data.isEmpty = false) :
    ((∀ k, 1 ≤ k → k ≤ 10 →
        ([addMissingNodenamePfx join_cluster, nodename].all
          fun node => pyInStr node (stat k)) = false) →
      _possibly_join_cluster join_cluster nodename stat =
        ⟨(List.range 10).map (· + 1), 27,
         .error (.clusteringError (clusterJoinFailMessage 10
           (addMissingNodenamePfx join_cluster) (stat 10)))⟩) ∧
    (∀ k, 1 ≤ k → k ≤ 10 →
      (∀ j, 1 ≤ j → j < k →
        ([addMissingNodenamePfx join_cluster, nodename].all
          fun node => pyInStr node (stat j)) = false) →
      ([addMissingNodenamePfx join_cluster, nodename].all
        fun node => pyInStr node (stat k)) = true →
      _possibly_join_cluster join_cluster nodename stat =
        ⟨(List.range k).map (· + 1), 3 * (k - 1), .ok ()⟩) := by
  constructor
  · intro hfail
    simp only [_possibly_join_cluster, hj, Bool.false_eq_true, if_false]
    rw [clusterJoinLoop_never stat _ _ 10 3 10 0 [] 0 rfl (by omega)
      (fun k h1 h2 => hfail k (by omega) h2)]
    simp only [List.nil_append, Nat.zero_add]
  · intro k hk1 hk10 hfail hjoin
    simp only [_possibly_join_cluster, hj, Bool.false_eq_true, if_false]
    rw [clusterJoinLoop_joins stat _ _ 10 3 k 10 0 [] 0 rfl (by omega)
      hk10 (fun j hj1 hj2 => hfail j (by omega) hj2) hjoin]
    simp only [List.nil_append, Nat.zero_add, Nat.sub_zero]

/-- Witness for C9: a status oracle that never shows the nodes, and one
that shows them on the third attempt. -/
theorem rabbit_join_retry_budget_witness :
    ("node1".data.isEmpty = false ∧
     (["rabbit@node1", "rabbit@node2"].all
        fun node => pyInStr node "") = false ∧
     (["rabbit@node1", "rabbit@node2"].all
        fun node => pyInStr node (statJoin3 3)) = true) ∧
    _possibly_join_cluster "node1" "rabbit@node2" (fun _ => "") =
      ⟨(List.range 10).map (· + 1), 27,
       .error (.clusteringError
         (clusterJoinFailMessage 10 "rabbit@node1" ""))⟩ ∧
    _possibly_join_cluster "node1" "rabbit@node2" statJoin3 =
      ⟨(List.range 3).map (· + 1), 3 * (3 - 1), .ok ()⟩ := by
  refine ⟨⟨by decide, by decide, by decide⟩, ?_, ?_⟩
  · exact (rabbit_join_retry_budget "node1" "rabbit@node2" (fun _ => "")
      (by decide)).1 (fun k _ _ =>
        (by decide :
          (["rabbit@node1", "rabbit@node2"].all
            fun node => pyInStr node "") = false))
  · exact (rabbit_join_retry_budget "node1" "rabbit@node2" statJoin3
      (by decide)).2 3 (by omega) (by omega)
      (fun j hj1 hj2 => by interval_cases j <;> decide)
      (by decide)
theorem except_error_bind2 {α β : Type} (e : Err) (f : α → Except Err β) :
    (Except.error e : Except Err α) >>= f = .error e := rfl

theorem except_ok_bind {α β : Type} (a : α) (f : α → Except Err β) :
    (Except.ok a : Except Err α) >>= f = f a := rfl

theorem except_throw_bind {α β : Type} (e : Err) (f : α → Except Err β) :
    (throw e : Except Err α) >>= f = .error e := rfl

/-- Claim C10: in `check_certificates`, once the cert and key pass the
file checks, a truthy `key_password` makes the function fail with
`TypeError` (the source appends a Python list to the `key_filename`
string) before the modulus comparison; the modulus-mismatch
`ValidationError` naming both file paths arises on the no-password path. -/
theorem check_certificates_key_password_behaviour (env : Env)
    (component : String) (sectionGet : String → Option String)
    (cert_path key_path ca_path key_password : String) (rnc : Bool)
    (hcert : pyTruthy (sectionGet cert_path) = true)
    (hkey : pyTruthy (sectionGet key_path) = true)
    (hkchk : _check_ssl_file env (pyGetD (sectionGet key_path)) .key
      (sectionGet key_password) = .ok ())
    (hcchk : _check_ssl_file env (pyGetD (sectionGet cert_path)) .cert
      none = .ok ()) :
    (pyTruthy (sectionGet key_password) = true →
      check_certificates env component sectionGet cert_path key_path ca_path
        key_password rnc = .error .typeError) ∧
    (pyTruthy (sectionGet key_password) = false →
     pyStrip (env.sudo_stdout ["openssl", "x509", "-noout", "-modulus",
        "-in", pyGetD (sectionGet cert_path)]) ≠
       pyStrip (env.sudo_stdout ["openssl", "rsa", "-noout", "-modulus",
        "-in", pyGetD (sectionGet key_path)]) →
      check_certificates env component sectionGet cert_path key_path ca_path
        key_password rnc = .error (.validationError (certMismatchMessage
          (pyGetD (sectionGet key_path)) component key_path
          (pyGetD (sectionGet cert_path)) cert_path))) := by
  constructor
  · intro hpw
    simp [check_certificates, hcert, hkey, hpw, hkchk, hcchk,
      pyStrPlusList, except_error_bind2, except_ok_bind, except_throw_bind]
  · intro hpw hmm
    simp [check_certificates, hcert, hkey, hpw, hkchk, hcchk, hmm,
      except_error_bind2, except_ok_bind, except_throw_bind]

/-- Witness for C10 with concrete sections with and without a key
password. -/
theorem check_certificates_key_password_behaviour_witness :
    (pyTruthy (sslSectionPw "cert_path") = true ∧
     pyTruthy (sslSectionPw "key_path") = true ∧
     pyTruthy (sslSectionPw "key_password") = true ∧
     pyTruthy (sslSectionNoPw "key_password") = false) ∧
    check_certificates certEnv "ssl_inputs" sslSectionPw "cert_path"
      "key_path" "ca_path" "key_password" true = .error .typeError ∧
    check_certificates certEnv "ssl_inputs" sslSectionNoPw "cert_path"
      "key_path" "ca_path" "key_password" true =
      .error (.validationError (certMismatchMessage "/k.key" "ssl_inputs"
        "key_path" "/c.crt" "cert_path")) := by
  refine ⟨⟨by decide, by decide, by decide, by decide⟩, ?_, ?_⟩
  · exact (check_certificates_key_password_behaviour certEnv "ssl_inputs"
      sslSectionPw "cert_path" "key_path" "ca_path" "key_password" true
      (by decide) (by decide) (by decide) (by decide)).1 (by decide)
  · exact (check_certificates_key_password_behaviour certEnv "ssl_inputs"
      sslSectionNoPw "cert_path" "key_path" "ca_path" "key_password" true
      (by decide) (by decide) (by decide) (by decide)).2 (by decide)
      (by decide)
theorem except_throw_eq {α : Type} (e : Err) :
    (throw e : Except Err α) = .error e := rfl

/-- Claim C4 (amended): for every configuration requesting the database
service without the manager service, with remote connections enabled and
an empty postgres password, `_validate_postgres_inputs` raises a
`ValidationError` directly — it never touches the shared accumulator. -/
theorem postgres_inputs_db_only_raises (cfg : Config)
    (hdb : DATABASE_SERVICE ∈ cfg.services_to_install)
    (hmgr : MANAGER_SERVICE ∉ cfg.services_to_install)
    (hrem : cfg.postgresql_server_enable_remote_connections = true)
    (hpw : cfg.postgresql_server_postgres_password = "") :
    _validate_postgres_inputs cfg =
      .error (.validationError ("When using an external database, both " ++
        "enable_remote_connections and postgres_password must be set")) := by
  simp [_validate_postgres_inputs, _services_coexistence_assertion,
    hdb, hmgr, hrem, hpw, pyTruthy, except_throw_bind, except_throw_eq]

/-- Claim C3 (amended): with `only_install` set, `validate` is
independent of the manager IP inputs (the required-inputs check and all
runtime-configuration validations are skipped), while every component's
`validate_dependencies()` hook still runs and its failure propagates. -/
theorem only_install_still_validates_dependencies (cfg : Config) (env : Env)
    (comps : List Component) (errs0 : List String) (sv : Bool)
    (p q : Option String) :
    validate { cfg with manager_private_ip := p, manager_public_ip := q }
        env comps errs0 sv true = validate cfg env comps errs0 sv true ∧
    ∀ e, _validate_dependencies comps = .error e →
      validate cfg env comps errs0 sv true = .error e := by
  constructor
  · cases cfg
    simp [validate, _validate_supported_distros, _validate_openssl_version,
      _validate_user_has_sudo_permissions, _validate_sufficient_disk_space,
      _get_os_distro, _get_available_host_disk_space]
  · intro e he
    simp [validate, he, except_error_bind2]
/-- Counterexample for C4: with a database-only install,
`enable_remote_connections = true` and an empty `postgres_password`,
`_validate_postgres_inputs` raises a `ValidationError` directly (and
`validate` propagates exactly that error rather than an aggregated
accumulator report). -/
theorem postgres_inputs_raises_directly :
    _validate_postgres_inputs cfgDbOnlyRemoteNoPw =
      .error (.validationError ("When using an external database, both " ++
        "enable_remote_connections and postgres_password must be set")) ∧
    validate cfgDbOnlyRemoteNoPw envOK [] [] false false =
      .error (.validationError ("When using an external database, both " ++
        "enable_remote_connections and postgres_password must be set")) := by
  exact ⟨by decide, by decide⟩

/-- Witness for C4 at the concrete database-only configuration. -/
theorem postgres_inputs_db_only_raises_witness :
    (DATABASE_SERVICE ∈ cfgDbOnlyRemoteNoPw.services_to_install ∧
     MANAGER_SERVICE ∉ cfgDbOnlyRemoteNoPw.services_to_install ∧
     cfgDbOnlyRemoteNoPw.postgresql_server_enable_remote_connections = true ∧
     cfgDbOnlyRemoteNoPw.postgresql_server_postgres_password = "") ∧
    _validate_postgres_inputs cfgDbOnlyRemoteNoPw =
      .error (.validationError ("When using an external database, both " ++
        "enable_remote_connections and postgres_password must be set")) :=
  ⟨⟨by decide, by decide, by decide, by decide⟩,
   postgres_inputs_db_only_raises cfgDbOnlyRemoteNoPw (by decide) (by decide)
     (by decide) (by decide)⟩

/-- Counterexample for C3: with `only_install` set and the private IP
unset, `validate` succeeds even though `_validate_inputs` would raise —
the required-inputs check is skipped in only-install mode. -/
theorem only_install_skips_inputs_check :
    validate cfgNoPrivateIp envOK [] [] false true = .ok [] ∧
    _validate_inputs cfgNoPrivateIp =
      .error (.validationError
        (inputNotSetMessage "Private IP" "private_ip" "--private-ip")) := by
  exact ⟨by decide, by decide⟩

/-- Witness for C3 with a component whose dependency hook fails. -/
theorem only_install_validates_dependencies_witness :
    (validate cfgNoIps envOK [depFailComponent] [] false true =
      validate cfgOK envOK [depFailComponent] [] false true ∧
     ∀ e, _validate_dependencies [depFailComponent] = .error e →
       validate cfgOK envOK [depFailComponent] [] false true = .error e) ∧
    validate cfgOK envOK [depFailComponent] [] false true =
      .error (.validationError "dependency missing") :=
  ⟨only_install_still_validates_dependencies cfgOK envOK [depFailComponent]
     [] false none none,
   by decide⟩
theorem str_empty_append (s : String) : "" ++ s = s := rfl

theorem str_append_empty (s : String) : s ++ "" = s := by
  cases s with
  | mk data => exact congrArg String.mk (List.append_nil data)

theorem pyJoin_mem_infix (sep m : String) (l : List String) (h : m ∈ l) :
    ∃ pre post, pyJoin sep l = pre ++ m ++ post := by
  induction l with
  | nil => cases h
  | cons x xs ih =>
    cases xs with
    | nil =>
      refine ⟨"", "", ?_⟩
      rw [List.mem_singleton.mp h]
      rw [str_empty_append, str_append_empty]
      rfl
    | cons y ys =>
      rcases List.mem_cons.mp h with rfl | hm
      · exact ⟨"", sep ++ pyJoin sep (y :: ys), by
          rw [str_empty_append, pyJoin, String.append_assoc]⟩
      · obtain ⟨pre, post, hp⟩ := ih hm
        refine ⟨x ++ sep ++ pre, post, ?_⟩
        rw [pyJoin, hp]
        simp only [String.append_assoc]
/-- Claim C2 (amended): starting from an empty accumulator, when the hard
checks pass and the soft pass collects `errs`, `validate` raises exactly
one `ValidationError` whose message contains every collected message when
`errs ≠ []` and raises nothing when `errs = []`; hard validations
(required inputs, dependency hooks) propagate immediately as-is.  (The
accumulator is never cleared by `validate` itself; see the
counterexample.) -/
theorem validate_soft_aggregation (cfg : Config) (env : Env)
    (comps : List Component)
    (h1 : _validate_inputs cfg = .ok ())
    (h2 : _validate_dependencies comps = .ok ())
    (hskip : cfg.validations_skip_validations = false)
    (h3 : _validate_postgres_inputs cfg = .ok ())
    (h4 : _validate_external_postgres_ssl_enabled cfg = .ok ())
    (h5 : _validate_postgres_ssl_certificates_provided cfg = .ok ())
    (h6 : _validate_cert_inputs env cfg = .ok ())
    (errs : List String)
    (herrs : errs = _validate_sufficient_disk_space env cfg
      (_validate_user_has_sudo_permissions env
       (_validate_openssl_version env
        (_validate_supported_distros env cfg
         (_validate_sufficient_memory env cfg
          (_validate_python_version env cfg
           (if !(cfg.postgresql_client_host == "localhost" ||
                 cfg.postgresql_client_host == "127.0.0.1") then
              _validate_ip env cfg.postgresql_client_host false
                (_validate_ip env (pyGetD cfg.manager_public_ip) false
                  (_validate_ip env (pyGetD cfg.manager_private_ip) true []))
            else
              _validate_ip env (pyGetD cfg.manager_public_ip) false
                (_validate_ip env (pyGetD cfg.manager_private_ip) true
                  [])))))))) :
    (errs = [] → validate cfg env comps [] false false = .ok []) ∧
    (errs ≠ [] →
      validate cfg env comps [] false false =
        .error (.validationError
          ("Validation error(s):\n" ++ pyJoin "\n" errs)) ∧
      ∀ m ∈ errs, ∃ pre post,
        "Validation error(s):\n" ++ pyJoin "\n" errs = pre ++ m ++ post) ∧
    (∀ cfg2 e, _validate_inputs cfg2 = .error e →
      validate cfg2 env comps [] false false = .error e) ∧
    (∀ comps3 e, _validate_dependencies comps3 = .error e →
      validate cfg env comps3 [] false false = .error e) := by
  have hv : validate cfg env comps [] false false =
      if errs = [] then .ok errs
      else .error (.validationError
        ("Validation error(s):\n" ++ pyJoin "\n" errs)) := by
    simp only [validate, h1, h2, hskip, h3, h4, h5, h6, except_ok_bind,
      except_throw_eq, except_throw_bind, Bool.not_false, Bool.not_true,
      Bool.false_or, if_true, if_false, ite_true, ite_false, pure_bind,
      bind_assoc, Bool.false_eq_true]
    rw [← herrs]
    by_cases hc : errs = []
    · simp [hc]
      rfl
    · simp [hc, except_error_bind2]
  refine ⟨?_, ?_, ?_, ?_⟩
  · intro hc
    rw [hv, if_pos hc, hc]
  · intro hc
    refine ⟨by rw [hv, if_neg hc], ?_⟩
    intro m hm
    obtain ⟨pre, post, hp⟩ := pyJoin_mem_infix "\n" m errs hm
    refine ⟨"Validation error(s):\n" ++ pre, post, ?_⟩
    rw [hp]
    simp only [String.append_assoc]
  · intro cfg2 e he
    simp [validate, he, except_error_bind2]
  · intro comps3 e he
    simp [validate, h1, he, except_ok_bind, except_error_bind2]
/-- Counterexample for C2: the module-level `_errors` accumulator is not
cleared at the start of `validate()` — on a configuration and host where
every check passes, a fresh accumulator yields success while a stale entry
from an earlier call in the same process is flushed into a raised
`ValidationError`. -/
theorem errors_accumulator_not_cleared :
    validate cfgOK envOK [] [] false false = .ok [] ∧
    validate cfgOK envOK [] ["stale"] false false =
      .error (.validationError ("Validation error(s):\n" ++ "stale")) := by
  exact ⟨by decide, by decide⟩

/-- Witness for C2: an all-passing run, a run with one broken soft
condition, and a run with a missing required input. -/
theorem validate_soft_aggregation_witness :
    (_validate_inputs cfgOK = .ok () ∧ _validate_dependencies [] = .ok () ∧
     cfgOK.validations_skip_validations = false) ∧
    validate cfgOK envOK [] [] false false = .ok [] ∧
    validate cfgOK envBadPython [] [] false false =
      .error (.validationError ("Validation error(s):\n" ++ pyJoin "\n"
        ["Local python version (`3.6`) does not match expected " ++
         "version (`2.7`)"])) ∧
    validate cfgNoPrivateIp envOK [] [] false false =
      .error (.validationError
        (inputNotSetMessage "Private IP" "private_ip" "--private-ip")) := by
  refine ⟨⟨by decide, by decide, by decide⟩, ?_, ?_, ?_⟩
  · exact (validate_soft_aggregation cfgOK envOK [] (by decide) (by decide)
      (by decide) (by decide) (by decide) (by decide) (by decide)
      [] (by decide)).1 rfl
  · exact ((validate_soft_aggregation cfgOK envBadPython [] (by decide)
      (by decide) (by decide) (by decide) (by decide) (by decide) (by decide)
      ["Local python version (`3.6`) does not match expected " ++
       "version (`2.7`)"] (by decide)).2.1 (by decide)).1
  · exact (validate_soft_aggregation cfgOK envOK [] (by decide) (by decide)
      (by decide) (by decide) (by decide) (by decide) (by decide)
      [] (by decide)).2.2.1 cfgNoPrivateIp
      (.validationError
        (inputNotSetMessage "Private IP" "private_ip" "--private-ip"))
      (by decide)

end Cfy
